import Mathlib

/-!
Verification development for the `resilient` repository: a shallow embedding of
the `aead` package (`src/aead/aead.go`) and the `oidc` relying-party service
(`src/oidc/oidc.go`), with theorems settling the frozen claims about them.

Modelling conventions:
- Go byte slices and Go strings holding binary data are `List Nat` (each
  element a byte value); Go strings holding text are Lean `String`s.
- `crypto/rand` successes are modelled by passing the random bytes as explicit
  arguments; the error path of `rand.Read` (practically unreachable) is not
  modelled.
- The `cipher.AEAD` interface is a structure of functions, exactly as the Go
  code is parametric in the interface value it receives.
- External collaborators reached through interfaces (the OP's HTTP endpoints,
  `encoding/json`, `jwt-go`) are function-valued fields of an environment
  record; the handler bodies themselves are translated statement by statement
  from the source.
-/

/-! ## Bytes and strings -/

/-- The bytes of an ASCII Lean string (models Go's `[]byte(s)` conversion; the
strings this development converts are all ASCII, where UTF-8 is the identity on
code points). -/
def strBytes (s : String) : List Nat := s.data.map Char.toNat

/-- Split a character list at every `'.'`, keeping empty segments: the
semantics of Go's `strings.Split(s, ".")`. -/
def splitOnDotCh : List Char → List (List Char)
  | [] => [[]]
  | c :: rest =>
    match splitOnDotCh rest with
    | h :: t => if c = '.' then [] :: h :: t else (c :: h) :: t
    | [] => [[c]]

/-- Go's `strings.Split(literal, ".")` on a Lean string. -/
def goSplitDot (s : String) : List String := (splitOnDotCh s.data).map String.mk

/-! ## base64 (encoding/base64)

Go's `base64.StdEncoding` and `base64.URLEncoding` are both padded encodings
that differ only in the characters used for the sextet values 62 and 63
(`+`/`/` versus `-`/`_`). Decoding ignores `\r` and `\n`, requires the input
length to be a multiple of four, accepts `=` padding only at the end of the
final quantum, and (in the default non-strict mode used by `DecodeString`)
does not reject non-zero trailing bits. -/

/-- The standard base64 alphabet (`base64.StdEncoding`). -/
def stdAlphabet (n : Nat) : Char :=
  "ABCDEFGHIJKLMNOPQRSTUVWXYZabcdefghijklmnopqrstuvwxyz0123456789+/".data.getD n 'A'

/-- The URL-safe base64 alphabet (`base64.URLEncoding`). -/
def urlAlphabet (n : Nat) : Char :=
  "ABCDEFGHIJKLMNOPQRSTUVWXYZabcdefghijklmnopqrstuvwxyz0123456789-_".data.getD n 'A'

/-- Padded base64 encoding of a byte list with the given alphabet
(`Encoding.Encode` with `EncodedLen`-sized output). -/
def b64EncodeChunks (alpha : Nat → Char) : List Nat → List Char
  | [] => []
  | [b1] => [alpha (b1 / 4), alpha (b1 % 4 * 16), '=', '=']
  | [b1, b2] => [alpha (b1 / 4), alpha (b1 % 4 * 16 + b2 / 16), alpha (b2 % 16 * 4), '=']
  | b1 :: b2 :: b3 :: rest =>
      alpha (b1 / 4) :: alpha (b1 % 4 * 16 + b2 / 16) ::
      alpha (b2 % 16 * 4 + b3 / 64) :: alpha (b3 % 64) :: b64EncodeChunks alpha rest

/-- `base64.StdEncoding.Encode` as a string-producing function. -/
def stdEncode (bs : List Nat) : String := String.mk (b64EncodeChunks stdAlphabet bs)

/-- `base64.URLEncoding.Encode` as a string-producing function. -/
def urlEncode (bs : List Nat) : String := String.mk (b64EncodeChunks urlAlphabet bs)

/-- Value of a character in the URL-safe base64 alphabet, if any. -/
def urlCharVal (c : Char) : Option Nat :=
  (List.range 64).find? (fun n => urlAlphabet n = c)

/-- Decode base64 quanta of four characters (URL-safe alphabet), with Go's
padding rules: `=` only closes the final quantum, in the shapes `xx==`/`xxx=`;
non-zero trailing bits are accepted (non-strict mode). -/
def b64DecodeChunks : List Char → Option (List Nat)
  | [] => some []
  | c1 :: c2 :: c3 :: c4 :: rest =>
    match urlCharVal c1, urlCharVal c2 with
    | some v1, some v2 =>
      if c3 = '=' then
        if c4 = '=' ∧ rest = [] then some [v1 * 4 + v2 / 16] else none
      else
        match urlCharVal c3 with
        | some v3 =>
          if c4 = '=' then
            if rest = [] then some [v1 * 4 + v2 / 16, v2 % 16 * 16 + v3 / 4] else none
          else
            match urlCharVal c4 with
            | some v4 =>
              (b64DecodeChunks rest).map
                (fun tl => (v1 * 4 + v2 / 16) :: (v2 % 16 * 16 + v3 / 4) :: (v3 % 4 * 64 + v4) :: tl)
            | none => none
        | none => none
    | _, _ => none
  | _ => none

/-- `base64.URLEncoding.DecodeString`: newline characters are ignored, then the
input is decoded in quanta of four. -/
def urlDecode (s : String) : Option (List Nat) :=
  b64DecodeChunks (s.data.filter (fun c => c ≠ '\r' ∧ c ≠ '\n'))

/-! ## The cipher.AEAD interface -/

/-- The `cipher.AEAD` interface: nonce size, `Seal` (nonce, plaintext,
additional data → ciphertext) and `Open` (nonce, ciphertext, additional data →
plaintext or authentication failure). -/
structure AEADCipher where
  nonceSize : Nat
  Seal : List Nat → List Nat → List Nat → List Nat
  Open : List Nat → List Nat → List Nat → Option (List Nat)

/-- A concrete `cipher.AEAD` instance used to evaluate the codec on concrete
inputs: `seal` records the plaintext length, plaintext, additional data and
nonce; `opn` authenticates by checking the recorded additional data and nonce. -/
def toyAEAD : AEADCipher where
  nonceSize := 12
  Seal := fun nonce pt ad => pt.length :: pt ++ ad ++ nonce
  Open := fun nonce ct ad =>
    match ct with
    | [] => none
    | l :: rest =>
      if (rest.take l).length = l ∧ rest = rest.take l ++ ad ++ nonce then
        some (rest.take l)
      else none

/-! ## aead.Encrypt and aead.Decrypt (src/aead/aead.go) -/

/-- `aead.Encrypt`: seals `data` under the freshly generated `nonce` with
`metadata` as additional data, then composes
`<b64metadata>.<b64URLciphertext>.<b64URLnonce>`. The random nonce generated
by `rand.Read` is passed as the `nonce` argument. Note the source encodes the
metadata with `base64.StdEncoding.Encode` (into a buffer sized by
`base64.URLEncoding.EncodedLen`, which is the same length), while ciphertext
and nonce use `base64.URLEncoding.Encode`. -/
def Encrypt (aeadCipher : AEADCipher) (nonce metadata data : List Nat) : String :=
  let ciphertext := aeadCipher.Seal nonce data metadata
  (stdEncode metadata) ++ "." ++ (urlEncode ciphertext) ++ "." ++ (urlEncode nonce)

/-- The error results of `aead.Decrypt`, one per `return` site. -/
inductive DecryptError
  | badLiteral
  | decodeMetadataFailed
  | decodeCiphertextFailed
  | decodeNonceFailed
  | openFailed
deriving DecidableEq, Repr

/-- `aead.Decrypt`: split the literal on `.` into exactly three fields, decode
each with `base64.URLEncoding.DecodeString` (metadata, then ciphertext, then
nonce), then `Open`; only on success are metadata and data returned. -/
def Decrypt (aeadCipher : AEADCipher) (literal : String) :
    Except DecryptError (List Nat × List Nat) :=
  match goSplitDot literal with
  | [f1, f2, f3] =>
    match urlDecode f1 with
    | none => .error .decodeMetadataFailed
    | some metadata =>
      match urlDecode f2 with
      | none => .error .decodeCiphertextFailed
      | some ciphertext =>
        match urlDecode f3 with
        | none => .error .decodeNonceFailed
        | some nonce =>
          match aeadCipher.Open nonce ciphertext metadata with
          | none => .error .openFailed
          | some data => .ok (metadata, data)
  | _ => .error .badLiteral

/-! ## aead.NewAEADCipher (src/aead/aead.go) -/

/-- The error results of `aead.NewAEADCipher`: the length-validation message
of the `switch` statement, or the `aes.KeySizeError` from `aes.NewCipher`. -/
inductive AEADKeyError
  | invalidLength
  | aesKeySize
deriving DecidableEq, Repr

/-- An `aes` cipher block; `aes.NewCipher` accepts key lengths 16, 24 and 32
and otherwise returns `aes.KeySizeError`. -/
structure AESBlockCipher where
  key : List Nat
deriving DecidableEq, Repr

/-- `aes.NewCipher`. -/
def aesNewCipher (key : List Nat) : Except AEADKeyError AESBlockCipher :=
  if key.length = 16 ∨ key.length = 24 ∨ key.length = 32 then .ok ⟨key⟩
  else .error .aesKeySize

/-- The AES-GCM AEAD produced by `cipher.NewGCM`. -/
structure GCMCipher where
  block : AESBlockCipher
deriving DecidableEq, Repr

/-- `cipher.NewGCM`: never fails on an AES block (AES's block size is always
the required 128 bits). -/
def cipherNewGCM (b : AESBlockCipher) : Except AEADKeyError GCMCipher := .ok ⟨b⟩

/-- `aead.NewAEADCipher`. A `nil` key is `none`; `randKey` is the 32-byte key
generated by `rand.Read` on the nil path. The source validates the provided
key's length against 16, 24 and 36, stores the key (or the generated one) into
`keyval`, and then passes the original `key` argument — not `keyval` — to
`aes.NewCipher`; on the nil path `aes.NewCipher` therefore receives `nil`
(length 0). -/
def NewAEADCipher (key : Option (List Nat)) (randKey : List Nat) :
    Except AEADKeyError GCMCipher :=
  match key with
  | none =>
    let _keyval := randKey
    match aesNewCipher [] with
    | .error e => .error e
    | .ok blk => cipherNewGCM blk
  | some k =>
    if k.length = 16 ∨ k.length = 24 ∨ k.length = 36 then
      let _keyval := k
      match aesNewCipher k with
      | .error e => .error e
      | .ok blk => cipherNewGCM blk
    else .error .invalidLength

/-! ## oidc data model (src/oidc/oidc.go) -/

/-- `oidc.AuthnReqState`: the content of an authn-request cookie. -/
structure AuthnReqState where
  ClientID : String
  Secret : String
  State : String
  Nonce : String
deriving DecidableEq, Repr

/-- The zero value of `AuthnReqState`, as left by a failed `json.Unmarshal`. -/
def zeroState : AuthnReqState := ⟨"", "", "", ""⟩

/-- `oidc.TokenRspBody`: the JSON body of an OP token-endpoint response. -/
structure TokenRspBody where
  AccessToken : String
  TokenType : String
  RefreshToken : String
  ExpiresIn : Int
  IDToken : String
deriving DecidableEq, Repr

/-- A JSON-ish value stored in a `jwt-go` header or claims map
(`map[string]interface{}`): a string, or some non-string value. -/
inductive JVal
  | jstr (s : String)
  | jnum (n : Int)
deriving DecidableEq, Repr

/-- `fmt.Sprint` of a claims-map value. -/
def fmtSprint : JVal → String
  | .jstr s => s
  | .jnum n => toString n

/-- A decoded `jwt.Token`: header and claims maps (modelled as association
lists; Go map iteration order is arbitrary, the model fixes one order). -/
structure ParsedToken where
  header : List (String × JVal)
  claims : List (String × JVal)
deriving DecidableEq, Repr

/-- An HTTP response from the OP as the handler consumes it: status code,
`Content-Type` header value (`""` when unset) and body bytes. -/
structure HTTPRsp where
  status : Nat
  contentType : String
  body : List Nat
deriving DecidableEq, Repr

/-- Lookup in `url.Values` / a claims map: `m[k]` with its `ok` flag. -/
def getQ {α : Type} (q : List (String × α)) (k : String) : Option α :=
  (q.find? (fun kv => kv.1 = k)).map (fun kv => kv.2)

/-- An inbound HTTP request as the handlers consume it: method, parsed query
(`r.URL.Query()`), and the value of the `authnCookie` cookie if present
(`r.Cookie("authnCookie")` errors when absent). -/
structure Request where
  method : String
  query : List (String × List String)
  cookie : Option String
deriving DecidableEq, Repr

/-- One outbound network call to the OP. -/
inductive OPCall
  | postForm (endpoint : String) (form : List (String × List String))
  | userInfoGet (endpoint : String) (authz : String)
deriving DecidableEq, Repr

/-- The observable outcome of `handleAuthnToken`: an HTTP response (status,
`Content-Type` if set, body bytes), or a runtime panic (failed type assertion
or out-of-range slice). -/
inductive Outcome
  | response (status : Nat) (contentType : Option String) (body : List Nat)
  | panicked
deriving DecidableEq, Repr

/-- `oidc.writeError`: respond 400 Bad Request with the error text as body. -/
def writeErrorO (msg : String) : Outcome := .response 400 none (strBytes msg)

/-- The process environment of the `oidc` service: configuration resolved at
startup, the process AEAD cipher, and the ambient effects the handlers reach
through interfaces — per-request randomness (`uuid.NewRandom`, the `rand` nonce
used by `aead.Encrypt`), the clock strings, `encoding/json`, `jwt-go` signing
and parsing, and the OP's responses to the two outbound HTTP calls. -/
structure OidcEnv where
  exthost : String
  ophost : String
  defaultClientID : String
  defaultOpSharedSecret : String
  scope : String
  aead : AEADCipher
  oidState : String
  oidNonce : String
  encryptNonce : List Nat
  jti : String
  iatStr : String
  expStr : String
  marshalState : AuthnReqState → List Nat
  unmarshalState : List Nat → Option AuthnReqState
  unmarshalTokenRsp : List Nat → Except String TokenRspBody
  signJWT : List (String × String) → String → Except String String
  parseJWT : String → String → Except String ParsedToken
  postFormRsp : List (String × List String) → Except String HTTPRsp
  userInfoRsp : String → Except String HTTPRsp

/-- `opAuthnEndpoint` as initialized in `init`. -/
def opAuthnEndpoint (env : OidcEnv) : String :=
  "https://" ++ env.ophost ++ "/openId/authenticate"

/-- `opTokenEndpoint` as initialized in `init`. -/
def opTokenEndpoint (env : OidcEnv) : String :=
  "https://" ++ env.ophost ++ "/openId/token"

/-- `opUserInfoEndpoint` as initialized in `init`. -/
def opUserInfoEndpoint (env : OidcEnv) : String :=
  "https://" ++ env.ophost ++ "/openId/userinfo"

/-! ## oidc.handleLogin -/

/-- The authn-request redirect URL built by `handleLogin` (line 193). -/
def authnReqURL (env : OidcEnv) (clientID : String) : String :=
  opAuthnEndpoint env ++ "?response_type=code&scope=openid%20" ++ env.scope ++
  "&client_id=" ++ clientID ++ "&state=" ++ env.oidState ++ "&nonce=" ++ env.oidNonce ++
  "&redirect_uri=https://" ++ env.exthost ++ "/authn-token"

/-- An `http.Cookie` as set by `handleLogin`. -/
structure CookieRec where
  name : String
  value : String
  path : String
  domain : String
  httpOnly : Bool
  secure : Bool
  maxAge : Nat
deriving DecidableEq, Repr

/-- The `authnCookie` built by `handleLogin` for the resolved client ID and
secret: the JSON-marshalled `AuthnReqState` sealed under label
`"AuthnReqState"`. -/
def loginCookie (env : OidcEnv) (clientID secret : String) : CookieRec :=
  let st : AuthnReqState :=
    { ClientID := clientID, Secret := secret, State := env.oidState, Nonce := env.oidNonce }
  let value := Encrypt env.aead env.encryptNonce (strBytes "AuthnReqState") (env.marshalState st)
  { name := "authnCookie", value := value, path := "/authn-token", domain := env.exthost,
    httpOnly := true, secure := true, maxAge := 300 }

/-- The observable outcome of `handleLogin`: a 400 error, or a 303 redirect
with `Location` and the `Set-Cookie` cookie. -/
inductive LoginOutcome
  | badRequest (body : List Nat)
  | redirect (location : String) (cookie : CookieRec)
deriving DecidableEq, Repr

/-- `oidc.handleLogin`. Only GET is accepted; `clientid`/`secret` query
parameters override the configured defaults when present (a key present in
`url.Values` always carries at least one value, so `vs[0]` is modelled by
`vs.headD`), and presence of exactly one of the two is rejected after the
overrides are computed; otherwise the state is sealed into the cookie and a
303 redirect to the OP authn endpoint is emitted. -/
def handleLogin (env : OidcEnv) (r : Request) : LoginOutcome :=
  if r.method ≠ "GET" then .badRequest (strBytes "Bad HTTP Method") else
  let values := r.query
  let clientID :=
    match getQ values "clientid" with
    | some clientIDs => clientIDs.headD ""
    | none => env.defaultClientID
  let secret :=
    match getQ values "secret" with
    | some secrets => secrets.headD ""
    | none => env.defaultOpSharedSecret
  if (getQ values "clientid").isSome ≠ (getQ values "secret").isSome then
    .badRequest (strBytes "Both clientid and secret query parameters must be provided")
  else
    .redirect (authnReqURL env clientID) (loginCookie env clientID secret)

/-! ## oidc.handleAuthnToken

The handler is a linear pipeline; it is translated as one function per
pipeline segment, with the outbound-call trace of a segment prefixed by the
calls the segment itself makes. The request's parsed query (`authnRespParams`)
is read once at the top of the handler and passed down. -/

/-- Prefix the outbound-call trace of a pipeline tail. -/
def prefixCalls (cs : List OPCall) (p : Outcome × List OPCall) : Outcome × List OPCall :=
  (p.1, cs ++ p.2)

/-- The client-assertion claims map built at lines 301-302 (`requestTime` and
`uuid.NewRandom` are the environment's `iatStr`/`expStr`/`jti`). -/
def assertionClaims (env : OidcEnv) (st : AuthnReqState) : List (String × String) :=
  [("iss", st.ClientID), ("sub", st.ClientID), ("aud", opTokenEndpoint env),
   ("jti", env.jti), ("exp", env.expStr), ("iat", env.iatStr)]

/-- The token-request form built at line 309. -/
def tokenForm (env : OidcEnv) (st : AuthnReqState) (code assertion : String) :
    List (String × List String) :=
  [("grant_type", ["authorization_code"]), ("code", [code]), ("client_id", [st.ClientID]),
   ("client_assertion_type", ["urn:ietf:params:oauth:client-assertion-type:jwt-bearer"]),
   ("client_assertion", [assertion]),
   ("redirect_uri", ["https://" ++ env.exthost ++ "/authn-token"])]

/-- A header map entry rendered by the loop at lines 382-384: the
`val.(string)` type assertion panics (`none`) on a non-string value. -/
def headerKV (kv : String × JVal) : Option (List Nat) :=
  match kv.2 with
  | .jstr v => some (strBytes ("\"" ++ kv.1 ++ "\": \"" ++ v ++ "\","))
  | _ => none

/-- The header-loop body: concatenate rendered entries, propagating a panic. -/
def headerLoop : List (String × JVal) → Option (List Nat)
  | [] => some []
  | kv :: rest =>
    match headerKV kv, headerLoop rest with
    | some b, some bs => some (b ++ bs)
    | _, _ => none

/-- A claims map entry rendered by the loop at lines 387-389 (`fmt.Sprint`
never panics). -/
def claimKV (kv : String × JVal) : List Nat :=
  strBytes ("\"" ++ kv.1 ++ "\": \"" ++ fmtSprint kv.2 ++ "\",")

/-- Go string slicing `s[:n]` where `n` may be negative or exceed the length:
out of range is a runtime panic (`none`). -/
def goSlice (s : List Nat) (n : Int) : Option (List Nat) :=
  if n < 0 ∨ n > (s.length : Int) then none else some (s.take n.toNat)

/-- Pipeline tail after the userinfo response has been received and read
(lines 375-397): validate its status, then compose the response body from the
ID token's header and claims maps and the userinfo body.  Faithful to the
source: the trailing `",` of the header JSON is trimmed with `[:len-2]`
(dropping the closing quote as well), and the claims JSON is trimmed with
`[:len(headerJSON)-2]` — the length of the (already reassigned) header string,
not of the claims string. -/
def stageCompose (_env : OidcEnv) (tok : ParsedToken) (userInfoRspBody : List Nat) :
    Outcome × List OPCall :=
  match headerLoop tok.header with
  | none => (.panicked, [])
  | some hbody =>
    let headerJSON0 := strBytes "\x7b" ++ hbody
    match goSlice headerJSON0 ((headerJSON0.length : Int) - 2) with
    | none => (.panicked, [])
    | some htrim =>
      let headerJSON := htrim ++ strBytes "\x7d"
      let claimsJSON0 := strBytes "\x7b" ++ (tok.claims.map claimKV).flatten
      match goSlice claimsJSON0 ((headerJSON.length : Int) - 2) with
      | none => (.panicked, [])
      | some ctrim =>
        let claimsJSON := ctrim ++ strBytes "\x7d"
        let idTokenJSON :=
          strBytes "\x7b\"header\": " ++ headerJSON ++ strBytes ", \"claims\": " ++
          claimsJSON ++ strBytes "\x7d"
        let resultJSON :=
          strBytes "\x7b\"idtoken\": " ++ idTokenJSON ++ strBytes ", \"userinfo\": " ++
          userInfoRspBody ++ strBytes "\x7d"
        (.response 200 (some "application/JSON") resultJSON, [])

/-- Pipeline segment from the access-token check through the userinfo request
(lines 357-378). `ioutil.ReadAll` of the userinfo body is modelled as always
succeeding with the response's body. -/
def stageUserInfo (env : OidcEnv) (trb : TokenRspBody) (tok : ParsedToken) :
    Outcome × List OPCall :=
  if trb.AccessToken = "" then (writeErrorO "Missing Token Response Access Token", [])
  else
    let authz := "Bearer " ++ trb.AccessToken
    let call := OPCall.userInfoGet (opUserInfoEndpoint env) authz
    match env.userInfoRsp authz with
    | .error _ => (writeErrorO "User Info Request Failed", [call])
    | .ok ursp =>
      if ursp.status ≠ 200 then (writeErrorO "User Info Request Failed", [call])
      else prefixCalls [call] (stageCompose env tok ursp.body)

/-- The nonce check at lines 351-355: `idToken.Claims["nonce"].(string)` is an
unchecked type assertion, a runtime panic when the claim is absent or not a
string. -/
def stageNonce (env : OidcEnv) (st : AuthnReqState) (trb : TokenRspBody)
    (tok : ParsedToken) : Outcome × List OPCall :=
  match getQ tok.claims "nonce" with
  | some (.jstr s) =>
    if st.Nonce ≠ s then
      (writeErrorO "Authn Request Nonce does not match ID Token Nonce", [])
    else stageUserInfo env trb tok
  | _ => (.panicked, [])

/-- Token-response validation and ID-token parsing (lines 319-349): status
must be 200, `Content-Type` must be `application/json`, the JSON body must
unmarshal, the ID token must be non-empty and must parse under the flow
secret. (`ioutil.ReadAll`'s error at line 319 is discarded by the source.) -/
def stageTokenRsp (env : OidcEnv) (st : AuthnReqState) (rsp : HTTPRsp) :
    Outcome × List OPCall :=
  if rsp.status ≠ 200 then (writeErrorO "OP Token Request Status Error", [])
  else if rsp.contentType ≠ "application/json" then
    (writeErrorO "OP Token Request Bad Content-Type", [])
  else
    match env.unmarshalTokenRsp rsp.body with
    | .error _ => (writeErrorO "Error Decoding Token Response Body", [])
    | .ok trb =>
      if trb.IDToken = "" then (writeErrorO "Missing Token Response ID Token", [])
      else
        match env.parseJWT trb.IDToken st.Secret with
        | .error _ => (writeErrorO "ID Token Parsing Failed with Error", [])
        | .ok tok => stageNonce env st trb tok

/-- Client-assertion signing and the token-endpoint POST (lines 300-314). The
POST is an outbound OP call whether or not it succeeds. -/
def stageTokenReq (env : OidcEnv) (st : AuthnReqState) (code : String) :
    Outcome × List OPCall :=
  match env.signJWT (assertionClaims env st) st.Secret with
  | .error _ => (writeErrorO "Client Assertion Signing Error", [])
  | .ok assertion =>
    let form := tokenForm env st code assertion
    let call := OPCall.postForm (opTokenEndpoint env) form
    match env.postFormRsp form with
    | .error _ => (writeErrorO "Token Endpoint Form Post Error", [call])
    | .ok rsp => prefixCalls [call] (stageTokenRsp env st rsp)

/-- The query-parameter checks of lines 261-298: the `state` parameter must be
present with exactly one value equal to `st.State` (the comparison at line 277
repeats the one at line 269), an OP-reported `error` parameter is surfaced,
and the `code` parameter must be present with exactly one value. -/
def stageParams (env : OidcEnv) (params : List (String × List String))
    (st : AuthnReqState) : Outcome × List OPCall :=
  match getQ params "state" with
  | none => (writeErrorO "Missing Authn Response State", [])
  | some authnRespStates =>
    match authnRespStates with
    | [s0] =>
      if st.State ≠ s0 then (writeErrorO "State match failed", [])
      else if st.State ≠ s0 then (writeErrorO "State match failed", [])
      else
        match getQ params "error" with
        | some _ => (writeErrorO "OP Authn Request Error", [])
        | none =>
          match getQ params "code" with
          | none => (writeErrorO "Missing Authn Response Authorization Code", [])
          | some authnRespCodes =>
            if authnRespCodes.length ≠ 1 then
              (writeErrorO "Authn Response Authorization Code has multiple values", [])
            else stageTokenReq env st (authnRespCodes.headD "")
    | _ => (writeErrorO "Authn Response State has multiple values", [])

/-- `oidc.handleAuthnToken`: method and cookie checks, AEAD decryption of the
cookie (the decrypted label is discarded), `json.Unmarshal` of the payload —
whose error return the source discards, leaving the zero-valued
`AuthnReqState` in place when deserialization fails — then the parameter
checks and the outbound pipeline. -/
def handleAuthnToken (env : OidcEnv) (r : Request) : Outcome × List OPCall :=
  let authnRespParams := r.query
  if r.method ≠ "GET" then (writeErrorO "Bad HTTP Method", [])
  else
    match r.cookie with
    | none => (writeErrorO "Missing authnCookie", [])
    | some cookieValue =>
      match Decrypt env.aead cookieValue with
      | .error _ => (writeErrorO "AEAD Decrypt failed", [])
      | .ok (_, payload) =>
        let st := (env.unmarshalState payload).getD zeroState
        stageParams env authnRespParams st

/-! ## Derived views used by the claim statements -/

/-- The effective `AuthnReqState` a callback request carries: the cookie's
payload decrypted and deserialized, the zero value standing in when
`json.Unmarshal` fails (whose error the handler discards). `none` when the
cookie is absent or does not authenticate. -/
def cookieFlowState (env : OidcEnv) (r : Request) : Option AuthnReqState :=
  match r.cookie with
  | none => none
  | some cv =>
    match Decrypt env.aead cv with
    | .ok (_, payload) => some ((env.unmarshalState payload).getD zeroState)
    | .error _ => none

/-! ## Theorems for the claims -/

/-- C1: the claim states that sealing any (label, payload) pair with `Encrypt`
and opening the result with `Decrypt` under the same AEAD succeeds and returns
the pair. It fails: `Encrypt` encodes the label with `base64.StdEncoding`
while `Decrypt` decodes it with `base64.URLEncoding`, so any label whose
standard-base64 form contains `+` or `/` — here the two-byte label
`0xFF 0xFF`, encoded `"//8="` — is rejected at metadata decoding, even though
the cipher itself would authenticate and return the payload. -/
theorem c1_roundtrip_fails_on_nonurl_label :
    Decrypt toyAEAD (Encrypt toyAEAD (List.replicate 12 0) [255, 255] [104, 105]) =
      .error .decodeMetadataFailed
  ∧ stdEncode [255, 255] = "//8="
  ∧ urlDecode "//8=" = none
  ∧ toyAEAD.Open (List.replicate 12 0)
      (toyAEAD.Seal (List.replicate 12 0) [104, 105] [255, 255]) [255, 255] =
      some [104, 105] :=
  ⟨rfl, rfl, rfl, rfl⟩

/-- C3: `Decrypt` returns a (label, payload) pair exactly when the literal
splits on `.` into three fields, all three fields URL-base64-decode, and the
AEAD open authenticates; and each failure mode — wrong field count, an
undecodable field, authentication failure — is reported by its own distinct
error constructor, with no data returned. -/
theorem c3_decrypt_characterization (c : AEADCipher) (lit : String) :
    (∀ l p, Decrypt c lit = .ok (l, p) ↔
      ∃ f1 f2 f3 ct n, goSplitDot lit = [f1, f2, f3] ∧ urlDecode f1 = some l ∧
        urlDecode f2 = some ct ∧ urlDecode f3 = some n ∧ c.Open n ct l = some p)
  ∧ (Decrypt c lit = .error .badLiteral ↔ (goSplitDot lit).length ≠ 3)
  ∧ (Decrypt c lit = .error .decodeMetadataFailed ↔
      ∃ f1 f2 f3, goSplitDot lit = [f1, f2, f3] ∧ urlDecode f1 = none)
  ∧ (Decrypt c lit = .error .decodeCiphertextFailed ↔
      ∃ f1 f2 f3 m, goSplitDot lit = [f1, f2, f3] ∧ urlDecode f1 = some m ∧
        urlDecode f2 = none)
  ∧ (Decrypt c lit = .error .decodeNonceFailed ↔
      ∃ f1 f2 f3 m ct, goSplitDot lit = [f1, f2, f3] ∧ urlDecode f1 = some m ∧
        urlDecode f2 = some ct ∧ urlDecode f3 = none)
  ∧ (Decrypt c lit = .error .openFailed ↔
      ∃ f1 f2 f3 m ct n, goSplitDot lit = [f1, f2, f3] ∧ urlDecode f1 = some m ∧
        urlDecode f2 = some ct ∧ urlDecode f3 = some n ∧ c.Open n ct m = none) := by
  rcases hsplit : goSplitDot lit with _ | ⟨f1, _ | ⟨f2, _ | ⟨f3, _ | ⟨f4, rest⟩⟩⟩⟩
  · simp [Decrypt, hsplit]
  · simp [Decrypt, hsplit]
  · simp [Decrypt, hsplit]
  · simp only [Decrypt, hsplit]
    rcases hd1 : urlDecode f1 with _ | m
    · simp [hd1]
    rcases hd2 : urlDecode f2 with _ | ct
    · simp [hd1, hd2]
      exact ⟨f1, f2, ⟨rfl, rfl⟩, ⟨m, hd1⟩, hd2⟩
    rcases hd3 : urlDecode f3 with _ | n
    · simp [hd1, hd2, hd3]
      exact ⟨f1, f2, f3, ⟨rfl, rfl, rfl⟩, ⟨m, hd1⟩, ⟨ct, hd2⟩, hd3⟩
    rcases hop : c.Open n ct m with _ | p
    · simp [hd1, hd2, hd3, hop]
      refine ⟨fun l p hml => by simp [← hml, hop], ?_⟩
      exact ⟨f1, f2, f3, ⟨rfl, rfl, rfl⟩, m, hd1, ct, hd2, n, hd3, hop⟩
    · simp [hd1, hd2, hd3, hop]
      intro l p1
      constructor
      · rintro ⟨rfl, rfl⟩
        exact ⟨f1, f2, f3, ⟨rfl, rfl, rfl⟩, hd1, ct, hd2, n, hd3, hop⟩
      · rintro ⟨a, b, c', ⟨rfl, rfl, rfl⟩, hl, x, hx, x1, hx1, hopn⟩
        rw [hd1] at hl
        rw [hd2] at hx
        rw [hd3] at hx1
        cases hl
        cases hx
        cases hx1
        rw [hop] at hopn
        cases hopn
        exact ⟨rfl, rfl⟩
  · simp [Decrypt, hsplit]

/-- C10: `NewAEADCipher` returns a cipher exactly for non-nil keys of length
16 or 24: the switch statement accepts lengths 16, 24 and 36 (not 32), so a
32-byte key hits the length-validation error; a 36-byte key passes the switch
but fails `aes.NewCipher`; and a nil key fails `aes.NewCipher` as well,
because the freshly generated key is not the value passed to it. -/
theorem c10_newAEADCipher_key_validation :
    (∀ randKey, NewAEADCipher none randKey = .error .aesKeySize)
  ∧ (∀ key randKey, (∃ c, NewAEADCipher (some key) randKey = .ok c) ↔
      (key.length = 16 ∨ key.length = 24))
  ∧ (∀ key randKey, NewAEADCipher (some key) randKey = .error .invalidLength ↔
      ¬(key.length = 16 ∨ key.length = 24 ∨ key.length = 36))
  ∧ (∀ key randKey, NewAEADCipher (some key) randKey = .error .aesKeySize ↔
      key.length = 36) := by
  refine ⟨fun randKey => rfl, fun key randKey => ?_, fun key randKey => ?_,
    fun key randKey => ?_⟩ <;>
    by_cases h16 : key.length = 16 <;> by_cases h24 : key.length = 24 <;>
    by_cases h36 : key.length = 36 <;>
    simp [NewAEADCipher, aesNewCipher, cipherNewGCM, h16, h24, h36]

/-- Helper: whenever the parameter-check segment rejects, it responds 400 with
an empty call trace; the rejection cases relevant to the state check. -/
theorem stageParams_state_reject (env : OidcEnv) (params : List (String × List String))
    (st : AuthnReqState)
    (h : getQ params "state" = none
      ∨ (∃ vs, getQ params "state" = some vs ∧ vs.length ≠ 1)
      ∨ (∃ s, getQ params "state" = some [s] ∧ s ≠ st.State)) :
    (∃ b, (stageParams env params st).1 = .response 400 none b) ∧
      (stageParams env params st).2 = [] := by
  rcases h with hq | ⟨vs, hq, hlen⟩ | ⟨s, hq, hs⟩
  · simp [stageParams, hq, writeErrorO]
  · rcases vs with _ | ⟨v, _ | ⟨v2, rest⟩⟩
    · simp [stageParams, hq, writeErrorO]
    · simp at hlen
    · simp [stageParams, hq, writeErrorO]
  · simp [stageParams, hq, writeErrorO, Ne.symm hs]

/-- Helper: any execution of the parameter-check segment that performs an
outbound call passed the state check: the `state` query parameter was present
with exactly the single value `st.State`. -/
theorem stageParams_calls_state_checked (env : OidcEnv) (params : List (String × List String))
    (st : AuthnReqState) (h : (stageParams env params st).2 ≠ []) :
    getQ params "state" = some [st.State] := by
  rcases hq : getQ params "state" with _ | vs
  · simp [stageParams, hq] at h
  rcases vs with _ | ⟨v, _ | ⟨v2, rest⟩⟩
  · simp [stageParams, hq] at h
  · by_cases hs : st.State = v
    · simp [hq, hs]
    · simp [stageParams, hq, hs] at h
  · simp [stageParams, hq] at h

/-- Helper: the handler on a request that passes the method, cookie and
decryption steps is the parameter-check segment on the recovered state. -/
theorem handleAuthnToken_deep (env : OidcEnv) (r : Request) (cv : String)
    (lab payload : List Nat) (hm : r.method = "GET") (hc : r.cookie = some cv)
    (hd : Decrypt env.aead cv = .ok (lab, payload)) :
    handleAuthnToken env r =
      stageParams env r.query ((env.unmarshalState payload).getD zeroState) := by
  simp [handleAuthnToken, hm, hc, hd]

/-- C2: a callback whose `state` query parameter is absent, has more than one
value, or differs from the state recovered from the opened cookie is rejected
with a 400 response and an empty outbound-call trace; and conversely, every
execution of the handler that performs any outbound OP call passed the state
comparison (the cookie opened and the `state` parameter was exactly its
state), so the comparison precedes every OP network call. -/
theorem c2_state_check_gates_op_calls (env : OidcEnv) (r : Request) :
    ((getQ r.query "state" = none
      ∨ (∃ vs, getQ r.query "state" = some vs ∧ vs.length ≠ 1)
      ∨ (∃ st s, cookieFlowState env r = some st ∧ getQ r.query "state" = some [s] ∧
          s ≠ st.State))
     → (∃ b, (handleAuthnToken env r).1 = .response 400 none b) ∧
        (handleAuthnToken env r).2 = [])
  ∧ ((handleAuthnToken env r).2 ≠ [] →
      ∃ st, cookieFlowState env r = some st ∧ getQ r.query "state" = some [st.State]) := by
  constructor
  · intro h
    by_cases hm : r.method = "GET"
    · rcases hc : r.cookie with _ | cv
      · simp [handleAuthnToken, hm, hc, writeErrorO]
      rcases hd : Decrypt env.aead cv with e | ⟨lab, payload⟩
      · simp [handleAuthnToken, hm, hc, hd, writeErrorO]
      rw [handleAuthnToken_deep env r cv lab payload hm hc hd]
      apply stageParams_state_reject
      rcases h with h | h | ⟨st, s, hst, hq, hs⟩
      · exact Or.inl h
      · exact Or.inr (Or.inl h)
      · refine Or.inr (Or.inr ⟨s, hq, ?_⟩)
        have : cookieFlowState env r = some ((env.unmarshalState payload).getD zeroState) := by
          simp [cookieFlowState, hc, hd]
        rw [this] at hst
        cases hst
        exact hs
    · simp [handleAuthnToken, hm, writeErrorO]
  · intro hne
    by_cases hm : r.method = "GET"
    · rcases hc : r.cookie with _ | cv
      · simp [handleAuthnToken, hm, hc] at hne
      rcases hd : Decrypt env.aead cv with e | ⟨lab, payload⟩
      · simp [handleAuthnToken, hm, hc, hd] at hne
      rw [handleAuthnToken_deep env r cv lab payload hm hc hd] at hne
      exact ⟨(env.unmarshalState payload).getD zeroState, by simp [cookieFlowState, hc, hd],
        stageParams_calls_state_checked env r.query _ hne⟩
    · simp [handleAuthnToken, hm] at hne

/-- C9: the label recovered by `Decrypt` at line 253 is discarded (`_`) and in
particular never compared with `"AuthnReqState"`: two callback requests whose
cookies authenticate to the same payload under arbitrary, possibly different,
labels are handled identically. -/
theorem c9_label_discarded (env : OidcEnv) (r : Request) (c1 c2 : String)
    (l1 l2 p : List Nat) (h1 : Decrypt env.aead c1 = .ok (l1, p))
    (h2 : Decrypt env.aead c2 = .ok (l2, p)) :
    handleAuthnToken env { r with cookie := some c1 } =
      handleAuthnToken env { r with cookie := some c2 } := by
  simp [handleAuthnToken, h1, h2]

/-! ## Concrete instantiations used by witnesses and counterexamples -/

/-- A concrete environment: toy cipher, fixed randomness and clock, stub JSON
codec, stub JWT signer/parser, and a stub OP that answers both endpoints with
200 `application/json`. -/
def baseEnv : OidcEnv where
  exthost := "rp.example"
  ophost := "op.example"
  defaultClientID := "cid0"
  defaultOpSharedSecret := "sec0"
  scope := "profile"
  aead := toyAEAD
  oidState := "S0"
  oidNonce := "N0"
  encryptNonce := List.replicate 12 0
  jti := "J"
  iatStr := "IAT"
  expStr := "EXP"
  marshalState := fun st => strBytes st.State
  unmarshalState := fun _ => some ⟨"CID", "SEC", "S", "N"⟩
  unmarshalTokenRsp := fun _ => .ok ⟨"AT", "bearer", "", 0, "IDT"⟩
  signJWT := fun _ _ => .ok "ASSERT"
  parseJWT := fun _ _ =>
    .ok ⟨[("alg", .jstr "HS256"), ("typ", .jstr "JWT")],
         [("nonce", .jstr "N"), ("iss", .jstr "issuer12345")]⟩
  postFormRsp := fun _ => .ok ⟨200, "application/json", []⟩
  userInfoRsp := fun _ => .ok ⟨200, "application/json", strBytes "\x7b\"sub\": \"alice\"\x7d"⟩

/-- A cookie value sealed by the toy cipher under the label `"AuthnReqState"`. -/
def cookieVal0 : String :=
  Encrypt toyAEAD (List.replicate 12 0) (strBytes "AuthnReqState") (strBytes "PAYLOAD")

/-- The same payload sealed under a different label. -/
def cookieValEvil : String :=
  Encrypt toyAEAD (List.replicate 12 0) (strBytes "Evil") (strBytes "PAYLOAD")

/-- A callback request with a mismatched `state` parameter. -/
def rC2 : Request :=
  { method := "GET", query := [("state", ["WRONG"]), ("code", ["C"])],
    cookie := some cookieVal0 }

/-- C2 witness: on a concrete callback whose cookie opens to state `"S"` but
whose `state` parameter is `"WRONG"`, the handler responds 400 with an empty
outbound-call trace. -/
theorem c2_state_check_gates_op_calls_witness :
    (∃ b, (handleAuthnToken baseEnv rC2).1 = .response 400 none b) ∧
      (handleAuthnToken baseEnv rC2).2 = [] :=
  (c2_state_check_gates_op_calls baseEnv rC2).1
    (Or.inr (Or.inr ⟨⟨"CID", "SEC", "S", "N"⟩, "WRONG", rfl, rfl, by decide⟩))

/-- A request shell whose cookie field the C9 witness varies. -/
def rShell : Request :=
  { method := "GET", query := [("state", ["S"]), ("code", ["C"])], cookie := none }

/-- C9 witness: two concrete cookies sealing the same payload under the labels
`"AuthnReqState"` and `"Evil"` are handled identically. -/
theorem c9_label_discarded_witness :
    handleAuthnToken baseEnv { rShell with cookie := some cookieVal0 } =
      handleAuthnToken baseEnv { rShell with cookie := some cookieValEvil } :=
  c9_label_discarded baseEnv rShell cookieVal0 cookieValEvil
    (strBytes "AuthnReqState") (strBytes "Evil") (strBytes "PAYLOAD") rfl rfl

/-- C5: in any callback execution that reaches ID-token verification — the
method, cookie, decryption, state, error and code checks passed, the client
assertion signed, the token exchange returned 200 `application/json`, the body
unmarshalled, the ID token was non-empty and parsed — a `nonce` claim that is
a string different from the flow state's `Nonce` makes the handler respond
400, with the token-endpoint POST as the only outbound call: the userinfo
request is never issued. -/
theorem c5_nonce_mismatch_rejected (env : OidcEnv) (r : Request) (cv : String)
    (lab payload : List Nat) (st : AuthnReqState) (code assertion : String)
    (rsp : HTTPRsp) (trb : TokenRspBody) (tok : ParsedToken) (s : String)
    (hm : r.method = "GET") (hc : r.cookie = some cv)
    (hd : Decrypt env.aead cv = .ok (lab, payload))
    (hu : (env.unmarshalState payload).getD zeroState = st)
    (hs : getQ r.query "state" = some [st.State])
    (he : getQ r.query "error" = none)
    (hcode : getQ r.query "code" = some [code])
    (hsig : env.signJWT (assertionClaims env st) st.Secret = .ok assertion)
    (hpost : env.postFormRsp (tokenForm env st code assertion) = .ok rsp)
    (hstatus : rsp.status = 200) (hct : rsp.contentType = "application/json")
    (hun : env.unmarshalTokenRsp rsp.body = .ok trb)
    (hid : trb.IDToken ≠ "")
    (hparse : env.parseJWT trb.IDToken st.Secret = .ok tok)
    (hnonce : getQ tok.claims "nonce" = some (.jstr s))
    (hne : st.Nonce ≠ s) :
    handleAuthnToken env r =
      (writeErrorO "Authn Request Nonce does not match ID Token Nonce",
       [OPCall.postForm (opTokenEndpoint env) (tokenForm env st code assertion)]) := by
  rw [handleAuthnToken_deep env r cv lab payload hm hc hd, hu]
  simp [stageParams, stageTokenReq, stageTokenRsp, stageNonce, prefixCalls,
    hs, he, hcode, hsig, hpost, hstatus, hct, hun, hid, hparse, hnonce, hne]

/-- An environment whose stub OP hands back an ID token whose decoded `nonce`
claim is `"X"`, different from the `"N"` stored in the cookie state. -/
def envC5 : OidcEnv :=
  { baseEnv with
    parseJWT := fun _ _ =>
      .ok ⟨[("alg", .jstr "HS256"), ("typ", .jstr "JWT")], [("nonce", .jstr "X")]⟩ }

/-- A callback request with matching state, a code, and the toy cookie. -/
def rC5 : Request :=
  { method := "GET", query := [("state", ["S"]), ("code", ["C"])],
    cookie := some cookieVal0 }

/-- C5 witness: on a concrete flow whose token exchange succeeds but whose ID
token carries nonce `"X"` instead of `"N"`, the handler responds 400 and the
only outbound call is the token-endpoint POST. -/
theorem c5_nonce_mismatch_rejected_witness :
    handleAuthnToken envC5 rC5 =
      (writeErrorO "Authn Request Nonce does not match ID Token Nonce",
       [OPCall.postForm (opTokenEndpoint envC5)
         (tokenForm envC5 ⟨"CID", "SEC", "S", "N"⟩ "C" "ASSERT")]) :=
  c5_nonce_mismatch_rejected envC5 rC5 cookieVal0
    (strBytes "AuthnReqState") (strBytes "PAYLOAD") ⟨"CID", "SEC", "S", "N"⟩ "C" "ASSERT"
    ⟨200, "application/json", []⟩ ⟨"AT", "bearer", "", 0, "IDT"⟩
    ⟨[("alg", .jstr "HS256"), ("typ", .jstr "JWT")], [("nonce", .jstr "X")]⟩ "X"
    rfl rfl rfl rfl rfl rfl rfl rfl rfl rfl rfl rfl (by decide) rfl rfl (by decide)

/-- An environment whose `json.Unmarshal` stub fails on every payload,
modelling a cookie payload that is not a valid `AuthnReqState` document. -/
def envC4 : OidcEnv := { baseEnv with unmarshalState := fun _ => none }

/-- A callback request whose `state` parameter is the empty string — the
`State` field of the zero-valued `AuthnReqState`. -/
def rC4 : Request :=
  { method := "GET", query := [("state", [""]), ("code", ["C"])],
    cookie := some cookieVal0 }

/-- C4: the claim states that a payload which fails to deserialize into a
`FlowState` terminates the pipeline with no OP network calls. It fails: the
source discards `json.Unmarshal`'s error at line 258 and continues with the
zero-valued state, so a callback whose cookie authenticates but whose payload
does not deserialize — and whose `state` parameter is the zero value `""` —
proceeds all the way to the token-endpoint POST, an outbound OP call. -/
theorem c4_unmarshal_error_ignored :
    envC4.unmarshalState (strBytes "PAYLOAD") = none
  ∧ (handleAuthnToken envC4 rC4).2 =
      [OPCall.postForm (opTokenEndpoint envC4) (tokenForm envC4 zeroState "C" "ASSERT")] :=
  ⟨rfl, rfl⟩

/-- An environment whose `jwt.Parse` stub decodes the ID token successfully
into a claims map with no `nonce` claim at all. -/
def envC6 : OidcEnv :=
  { baseEnv with
    parseJWT := fun _ _ => .ok ⟨[("alg", .jstr "HS256")], [("iss", .jstr "x")]⟩ }

/-- An environment whose `jwt.Parse` stub decodes the ID token successfully
into a claims map whose `nonce` claim is a number, not a string. -/
def envC6b : OidcEnv :=
  { baseEnv with
    parseJWT := fun _ _ => .ok ⟨[("alg", .jstr "HS256")], [("nonce", .jnum 5)]⟩ }

/-- C6: the claim states that a missing or non-string `nonce` claim fails at
decode time with a 400 rejection and that reading required claims never causes
a runtime fault. It fails: `jwt.Parse` imposes no required-claim set, so both
tokens decode without error (third conjunct), and the unchecked type assertion
`idToken.Claims["nonce"].(string)` at line 352 then panics — a runtime fault,
not a 400 response — both when the claim is absent and when it is not a
string. -/
theorem c6_nonce_claim_type_assertion_panics :
    (handleAuthnToken envC6 rC5).1 = .panicked
  ∧ (handleAuthnToken envC6b rC5).1 = .panicked
  ∧ envC6.parseJWT "IDT" "SEC" = .ok ⟨[("alg", .jstr "HS256")], [("iss", .jstr "x")]⟩ :=
  ⟨rfl, rfl, rfl⟩

/-- C7: the claim states that a fully successful flow responds 200 with
`Content-Type: application/json` and a well-formed JSON body composed of the
decoded ID token and the userinfo passthrough. It fails: on a concrete happy
path (header `{"alg": "HS256", "typ": "JWT"}`, claims
`{"nonce": "N", "iss": "issuer12345"}`, userinfo `{"sub": "alice"}`) the
handler emits `Content-Type: application/JSON` and a body in which the slice
`headerJSON[:len(headerJSON)-2]` has eaten the closing quote of the last
header value (`"JWT` unterminated) and the claims object has been truncated
to `len(headerJSON)-2` bytes (`"issu` cut mid-value) — not well-formed JSON,
and not the claimed composition. -/
theorem c7_success_body_mangled :
    handleAuthnToken baseEnv rC5 =
      (.response 200 (some "application/JSON")
        (strBytes ("\x7b\"idtoken\": \x7b\"header\": \x7b\"alg\": \"HS256\",\"typ\": \"JWT\x7d, " ++
          "\"claims\": \x7b\"nonce\": \"N\",\"iss\": \"issu\x7d\x7d, " ++
          "\"userinfo\": \x7b\"sub\": \"alice\"\x7d\x7d")),
       [OPCall.postForm (opTokenEndpoint baseEnv)
          (tokenForm baseEnv ⟨"CID", "SEC", "S", "N"⟩ "C" "ASSERT"),
        OPCall.userInfoGet (opUserInfoEndpoint baseEnv) "Bearer AT"]) :=
  rfl

/-- C8: a GET `/login` request that supplies exactly one of the `clientid` and
`secret` query parameters is answered with the 400 partial-override error and
no redirect (hence no `Location` and no `Set-Cookie`); when neither is
supplied the redirect and cookie are built from the configured defaults, and
when both are supplied they are built from the two query values — the only way
the defaults are overridden. -/
theorem c8_partial_override_rejected (env : OidcEnv) (r : Request)
    (hm : r.method = "GET") :
    (((getQ r.query "clientid").isSome ≠ (getQ r.query "secret").isSome) →
      handleLogin env r =
        .badRequest (strBytes "Both clientid and secret query parameters must be provided"))
  ∧ (getQ r.query "clientid" = none → getQ r.query "secret" = none →
      handleLogin env r =
        .redirect (authnReqURL env env.defaultClientID)
          (loginCookie env env.defaultClientID env.defaultOpSharedSecret))
  ∧ (∀ cs ss, getQ r.query "clientid" = some cs → getQ r.query "secret" = some ss →
      handleLogin env r =
        .redirect (authnReqURL env (cs.headD ""))
          (loginCookie env (cs.headD "") (ss.headD ""))) := by
  refine ⟨fun hodd => ?_, fun hc hs => ?_, fun cs ss hc hs => ?_⟩
  · rcases hc : getQ r.query "clientid" with _ | cs <;>
      rcases hs : getQ r.query "secret" with _ | ss <;>
      simp [hc, hs] at hodd <;>
      simp [handleLogin, hm, hc, hs]
  · simp [handleLogin, hm, hc, hs]
  · simp [handleLogin, hm, hc, hs]

/-- A login request supplying `clientid` but not `secret`. -/
def rC8 : Request :=
  { method := "GET", query := [("clientid", ["X"])], cookie := none }

/-- C8 witness: `/login?clientid=X` with no `secret` is answered 400. -/
theorem c8_partial_override_rejected_witness :
    handleLogin baseEnv rC8 =
      .badRequest (strBytes "Both clientid and secret query parameters must be provided") :=
  (c8_partial_override_rejected baseEnv rC8 rfl).1 (by decide)
